import Mathlib

/-
Verification development for the ConcreteFlow structural verification and
product-selection engine.

The repository snapshot contains the React frontend (forms, result views,
plan canvas, norm selector) and the shared result types; those are embedded
directly from the source.  The backend engine (code registry, structural
verifier, catalog search) is specified in spec.md but its implementation is
not part of the snapshot; those operations are modelled from the spec, as
marked in their doc comments.

All physical quantities (spans in metres, loads in kg/m², percentages,
canvas scales) are embedded as rationals.
-/

namespace ConcreteFlow

/-! ## Design codes (from the source: NormeType, AVAILABLE_NORMES, UPCOMING_NORMES) -/

/-- The five declared design codes, from the source type
`NormeType = 'EC2' | 'ACI318' | 'BAEL91' | 'BS8110' | 'CSA_A23'`. -/
inductive NormeType where
  | EC2
  | ACI318
  | BAEL91
  | BS8110
  | CSA_A23
deriving DecidableEq, BEq

/-- From the source: `AVAILABLE_NORMES: NormeType[] = ['EC2', 'ACI318', 'BAEL91']`. -/
def AVAILABLE_NORMES : List NormeType := [NormeType.EC2, NormeType.ACI318, NormeType.BAEL91]

/-- From the source: `UPCOMING_NORMES: NormeType[] = ['BS8110', 'CSA_A23']`. -/
def UPCOMING_NORMES : List NormeType := [NormeType.BS8110, NormeType.CSA_A23]

/-- All five declared codes, in declaration order of the source union type. -/
def allNormes : List NormeType :=
  [NormeType.EC2, NormeType.ACI318, NormeType.BAEL91, NormeType.BS8110, NormeType.CSA_A23]

/-- A code is implemented when it is listed among the available norms. -/
def implementedNorme (n : NormeType) : Bool := AVAILABLE_NORMES.contains n

/-! ## Core error taxonomy (spec §7) -/

/-- The closed set of fatal failure conditions of the core (spec §7). -/
inductive CoreError where
  | UnsupportedDesignCode
  | UnsupportedMaterial
  | InvalidInput
  | EmptyCatalog
deriving DecidableEq, BEq

/-- Modelled from the spec: a Code Engine instance as resolved by the Code
Registry.  The per-code numeric coefficient values are not part of the
repository snapshot, so the engine is identified by the code it serves. -/
structure Engine where
  norme : NormeType
deriving DecidableEq

/-- Modelled from the spec: the Code Registry, `resolve(code) → Engine`,
failing with `UnsupportedDesignCode` for codes not yet implemented
(spec §4.2); the implemented set is the source's `AVAILABLE_NORMES`. -/
def resolveNorme (n : NormeType) : Except CoreError Engine :=
  if implementedNorme n then Except.ok { norme := n }
  else Except.error CoreError.UnsupportedDesignCode

/-! ## Results view (from the source: PlancherResultats) -/

/-- From the source, PlancherResultats:
`verificationOk = resultats.verification?.ratio_utilisation_pct !== undefined
  && resultats.verification.ratio_utilisation_pct <= 100`.
The possibly-missing ratio is embedded as an `Option`. -/
def verificationOk (ratioUtilisationPct : Option ℚ) : Bool :=
  match ratioUtilisationPct with
  | none => false
  | some r => decide (r ≤ 100)

/-- From the source, the summary card title of PlancherResultats:
`verificationOk ? 'Vérification OK' : 'Portée insuffisante'`. -/
def plancherSummaryTitle (ratioUtilisationPct : Option ℚ) : String :=
  if verificationOk ratioUtilisationPct then "Vérification OK" else "Portée insuffisante"

/-! ## Span input validation (from the source: PlancherPoutrellesForm) -/

/-- From the source, the portée input of PlancherPoutrellesForm declares
`min="1"` and `max="15"`: a span value is accepted by the form's validation
exactly when it lies in [1, 15] metres. -/
def porteeInputAccepted (s : ℚ) : Bool :=
  decide (1 ≤ s) && decide (s ≤ 15)

/-! ## Plan canvas zoom (from the source: PlanCanvas) -/

/-- From the source, `handleWheel`:
`newScale = deltaY < 0 ? oldScale * 1.1 : oldScale / 1.1` followed by
`setScale(Math.max(0.1, Math.min(10, newScale)))`. -/
def handleWheelScale (deltaYNeg : Bool) (oldScale : ℚ) : ℚ :=
  max (1/10) (min 10 (if deltaYNeg then oldScale * (11/10) else oldScale / (11/10)))

/-- From the source: `handleZoomIn = () => setScale((s) => Math.min(s * 1.2, 10))`. -/
def handleZoomIn (s : ℚ) : ℚ := min (s * (6/5)) 10

/-- From the source: `handleZoomOut = () => setScale((s) => Math.max(s / 1.2, 0.1))`. -/
def handleZoomOut (s : ℚ) : ℚ := max (s / (6/5)) (1/10)

/-- From the source, the fit-to-content effect of PlanCanvas with padding 50:
`scaleX = (stageWidth - 100) / bounds.width`,
`scaleY = (stageHeight - 100) / bounds.height`,
`newScale = Math.min(scaleX, scaleY, 2)`. -/
def fitScale (stageW stageH boundsW boundsH : ℚ) : ℚ :=
  min (min ((stageW - 100) / boundsW) ((stageH - 100) / boundsH)) 2

/-! ## Calculation editor run/save wiring (from the source: CalculEditorPage) -/

/-- Observable events of the editor's save and run mutations. -/
inductive EditorEvent where
  | saveRequested
  | saveSucceeded
  | saveFailed
  | runRequested
deriving DecidableEq, BEq

/-- Semantics of `mutation.mutate(_, { onSuccess })` used by the editor:
the mutation is requested; when it succeeds, the success callback's events
follow, otherwise it fails and nothing else runs. -/
def mutateWithOnSuccess (succeeds : Bool) (onSuccess : List EditorEvent) : List EditorEvent :=
  EditorEvent.saveRequested ::
    (if succeeds then EditorEvent.saveSucceeded :: onSuccess else [EditorEvent.saveFailed])

/-- From the source, CalculEditorPage:
`handleRun = () => { updateMutation.mutate(parametres, { onSuccess: () => { runMutation.mutate() } }) }`. -/
def handleRun (saveSucceeds : Bool) : List EditorEvent :=
  mutateWithOnSuccess saveSucceeds [EditorEvent.runRequested]

/-- From the source, CalculEditorPage: `handleSave = () => { updateMutation.mutate(parametres) }`. -/
def handleSave (saveSucceeds : Bool) : List EditorEvent :=
  mutateWithOnSuccess saveSucceeds []

/-! ## Structural verifier (modelled from the spec) -/

/-- Modelled from the spec: a per-check VerificationResult (spec §3) with
numeric demand, numeric capacity/limit, pass flag and message; the pass flag
is true iff demand ≤ limit. -/
structure CheckResult where
  demand : ℚ
  limit : ℚ
  ok : Bool
  message : String
deriving DecidableEq

/-- Modelled from the spec: building one VerificationResult from a check's
name, demand and limit (pass iff demand ≤ limit). -/
def mkCheck (name : String) (demand limit : ℚ) : CheckResult :=
  { demand := demand
    limit := limit
    ok := decide (demand ≤ limit)
    message := if demand ≤ limit then name ++ " OK" else name ++ " dépassé" }

/-- Global pass/fail summary of a verification run (spec §4.3). -/
structure VerifySummary where
  globalStatus : String
  message : String
deriving DecidableEq

/-- Output of one verification run: the three check blocks plus the summary
(spec §4.3 and §6). -/
structure VerifyOutput where
  flexion : CheckResult
  fleche : CheckResult
  effortTranchant : CheckResult
  summary : VerifySummary
deriving DecidableEq

/-- Name of the first failing check in the fixed order
flexion → deflection → shear (spec §4.3). -/
def firstFailingName (f d s : CheckResult) : String :=
  if !f.ok then "flexion" else if !d.ok then "fleche" else "effort tranchant"

/-- Modelled from the spec: `summary.globalStatus = PASS` iff all three
sub-results pass; otherwise `FAIL` and the message names the first failing
check (spec §4.3). -/
def buildSummary (f d s : CheckResult) : VerifySummary :=
  if f.ok && d.ok && s.ok then
    { globalStatus := "PASS", message := "Toutes les vérifications passent" }
  else
    { globalStatus := "FAIL", message := "Echec: " ++ firstFailingName f d s }

/-- Modelled from the spec: the Structural Verifier (spec §4.3).  The
per-code numeric formulas of the Code Engines are not in the repository
snapshot, so each check is abstracted by its demand and its capacity/limit;
the orchestration — all three checks always execute in the fixed order and
all three are reported together with the summary — follows the spec. -/
def verify (flexDemand flexLimit flecheDemand flecheLimit shearDemand shearLimit : ℚ) :
    VerifyOutput :=
  let f := mkCheck "flexion" flexDemand flexLimit
  let d := mkCheck "fleche" flecheDemand flecheLimit
  let s := mkCheck "effort tranchant" shearDemand shearLimit
  { flexion := f, fleche := d, effortTranchant := s, summary := buildSummary f d s }

/-! ## Catalog search / selector (modelled from the spec) -/

/-- Modelled from the spec: one row of a manufacturer's span-capacity table
(spec §3 CatalogEntry; field names follow the source type
LigneCahierPortees).  `porteesLimites` maps a load band (kg/m²) to the
maximum allowable span (m). -/
structure CatalogEntry where
  reference : String
  hauteurHourdisCm : ℚ
  entraxeCm : ℚ
  epaisseurTableCm : ℚ
  porteesLimites : List (ℚ × ℚ)
  hauteurTotaleCm : ℚ
deriving DecidableEq

/-- The three optimization policies, named as in the source type
`optimisation?: 'economique' | 'minimal_hauteur' | 'maximal_reserve'`. -/
inductive OptimisationMode where
  | economique
  | minimalHauteur
  | maximalReserve
deriving DecidableEq, BEq

/-- Utilization ratio in percent: demanded span ÷ allowed span × 100 (spec §4.4 step 5). -/
def utilization (S allowedSpan : ℚ) : ℚ := S / allowedSpan * 100

/-- Span reserve: allowed span − demanded span (spec §4.4 step 5). -/
def reserve (S allowedSpan : ℚ) : ℚ := allowedSpan - S

/-- Feasibility predicate: an entry is feasible iff its allowed span is at
least the demanded span; equality counts as feasible (spec §4.4 step 4). -/
def feasible (S allowedSpan : ℚ) : Bool := decide (S ≤ allowedSpan)

/-- Modelled from the spec: load-band resolution, the smallest load-band key
at or above the requested load — conservative rounding, never interpolation
(spec §3 and §4.4 step 2).  Returns the band key together with its tabulated
maximum span, or `none` when the table does not cover loads this high. -/
def resolveBand (L : ℚ) : List (ℚ × ℚ) → Option (ℚ × ℚ)
  | [] => none
  | b :: rest =>
    let r := resolveBand L rest
    if L ≤ b.1 then
      match r with
      | none => some b
      | some c => if b.1 ≤ c.1 then some b else some c
    else r

/-- A catalog entry together with its resolved band and derived metrics
(spec §3 SelectionResult; metric names follow the source result type). -/
structure RatedEntry where
  entry : CatalogEntry
  chargeBand : ℚ
  allowedSpan : ℚ
  ratioUtilisationPct : ℚ
  reservePorteeM : ℚ
deriving DecidableEq

/-- Modelled from the spec: rate one entry for demanded span `S` and load
`L` — resolve the band, look up the allowed span and derive the metrics
(spec §4.4 steps 2, 3 and 5). -/
def rateEntry (S L : ℚ) (e : CatalogEntry) : Option RatedEntry :=
  (resolveBand L e.porteesLimites).map (fun b =>
    { entry := e
      chargeBand := b.1
      allowedSpan := b.2
      ratioUtilisationPct := utilization S b.2
      reservePorteeM := reserve S b.2 })

/-- Modelled from the spec: an entry matches when it agrees with the height
filter if provided and with the spacing filter if provided (spec §4.4 step 1). -/
def matchesFilters (hFilter eFilter : Option ℚ) (e : CatalogEntry) : Bool :=
  (match hFilter with
   | none => true
   | some h => decide (e.hauteurHourdisCm = h)) &&
  (match eFilter with
   | none => true
   | some x => decide (e.entraxeCm = x))

/-- Bool comparator viewed as a decidable relation, for sorting. -/
def boolRel {α : Type} (f : α → α → Bool) : α → α → Prop := fun a b => f a b = true

instance {α : Type} (f : α → α → Bool) : DecidableRel (boolRel f) :=
  fun a b => inferInstanceAs (Decidable (f a b = true))

/-- Modelled from the spec: the ranking comparator of each optimization
policy, with the spec's tie-breaks (spec §4.4 step 6): economique maximizes
utilization (ties by ascending total height), minimal_hauteur minimizes
total height (ties by descending utilization), maximal_reserve maximizes
reserve (ties by ascending total height). -/
def policyLE (p : OptimisationMode) (a b : RatedEntry) : Bool :=
  match p with
  | OptimisationMode.economique =>
      decide (b.ratioUtilisationPct < a.ratioUtilisationPct) ||
        (decide (a.ratioUtilisationPct = b.ratioUtilisationPct) &&
          decide (a.entry.hauteurTotaleCm ≤ b.entry.hauteurTotaleCm))
  | OptimisationMode.minimalHauteur =>
      decide (a.entry.hauteurTotaleCm < b.entry.hauteurTotaleCm) ||
        (decide (a.entry.hauteurTotaleCm = b.entry.hauteurTotaleCm) &&
          decide (b.ratioUtilisationPct ≤ a.ratioUtilisationPct))
  | OptimisationMode.maximalReserve =>
      decide (b.reservePorteeM < a.reservePorteeM) ||
        (decide (a.reservePorteeM = b.reservePorteeM) &&
          decide (a.entry.hauteurTotaleCm ≤ b.entry.hauteurTotaleCm))

/-- Rank feasible entries under the chosen policy (spec §4.4 step 6). -/
def rankFeasible (p : OptimisationMode) (l : List RatedEntry) : List RatedEntry :=
  List.insertionSort (boolRel (policyLE p)) l

/-- Ascending excess-utilization comparator for the diagnostic listing of
the closest infeasible entries (spec §4.4 step 8). -/
def excessLE (a b : RatedEntry) : Bool := decide (a.ratioUtilisationPct ≤ b.ratioUtilisationPct)

/-- Rank infeasible entries by smallest excess utilization (spec §4.4 step 8). -/
def rankInfeasible (l : List RatedEntry) : List RatedEntry :=
  List.insertionSort (boolRel excessLE) l

/-- Modelled from the spec: SelectionResult (spec §3) — the candidate count
after filtering, the selected entry (or none), the ranked alternatives each
carrying its own derived metrics, and an explanatory message.  The field
`nombreCandidates` follows the source result type `nombre_candidates`. -/
structure SelectionResult where
  nombreCandidates : Nat
  selected : Option RatedEntry
  alternatives : List RatedEntry
  message : String
deriving DecidableEq

/-- Entries of the catalog retained by the filters (spec §4.4 step 1). -/
def filteredEntries (hFilter eFilter : Option ℚ) (catalog : List CatalogEntry) :
    List CatalogEntry :=
  catalog.filter (matchesFilters hFilter eFilter)

/-- Retained entries whose load band resolves, with their derived metrics. -/
def ratedEntries (S L : ℚ) (hFilter eFilter : Option ℚ) (catalog : List CatalogEntry) :
    List RatedEntry :=
  (filteredEntries hFilter eFilter catalog).filterMap (rateEntry S L)

/-- The feasible rated entries (spec §4.4 step 4). -/
def feasibleEntries (S L : ℚ) (hFilter eFilter : Option ℚ) (catalog : List CatalogEntry) :
    List RatedEntry :=
  (ratedEntries S L hFilter eFilter catalog).filter (fun r => feasible S r.allowedSpan)

/-- The infeasible rated entries, kept for the diagnostic listing (spec §4.4 step 8). -/
def infeasibleEntries (S L : ℚ) (hFilter eFilter : Option ℚ) (catalog : List CatalogEntry) :
    List RatedEntry :=
  (ratedEntries S L hFilter eFilter catalog).filter (fun r => !(feasible S r.allowedSpan))

/-- Modelled from the spec: result assembly (spec §4.4 steps 7 and 8).  The
top-ranked feasible entry becomes the selection and the next 4 become
alternatives; with no feasible entry the result reports no selection, the
explanatory message, and the closest infeasible entries. -/
def assembleResult (nCand : Nat) (ranked closestInfeasible : List RatedEntry) :
    SelectionResult :=
  match ranked with
  | [] =>
      { nombreCandidates := nCand
        selected := none
        alternatives := closestInfeasible.take 4
        message := "span exceeds all catalog capacities for this load" }
  | sel :: rest =>
      { nombreCandidates := nCand
        selected := some sel
        alternatives := rest.take 4
        message := sel.entry.reference }

/-- Modelled from the spec: the Catalog Search / Selector (spec §4.4).
Malformed input — non-positive span or load — is rejected with
`InvalidInput` before any computation starts; an empty catalog is rejected
with `EmptyCatalog`; every other invocation reaches a `SelectionResult`. -/
def search (S L : ℚ) (hFilter eFilter : Option ℚ) (p : OptimisationMode)
    (catalog : List CatalogEntry) : Except CoreError SelectionResult :=
  if S ≤ 0 ∨ L ≤ 0 then Except.error CoreError.InvalidInput
  else if catalog.isEmpty then Except.error CoreError.EmptyCatalog
  else Except.ok (assembleResult (filteredEntries hFilter eFilter catalog).length
    (rankFeasible p (feasibleEntries S L hFilter eFilter catalog))
    (rankInfeasible (infeasibleEntries S L hFilter eFilter catalog)))

/-- Modelled from the spec: the run-calculation entry point of the search
path (spec §6 and §7).  The caller-supplied parameters hold the demanded
span and the applied load as optional fields (the source parameter type
CalculParametres declares `portee` and the charges as optional); a missing
required field is rejected with `InvalidInput` before any computation
starts, exactly like a non-positive value (fail fast, no partial result). -/
def runSelection (spanOpt loadOpt : Option ℚ) (hFilter eFilter : Option ℚ)
    (p : OptimisationMode) (catalog : List CatalogEntry) :
    Except CoreError SelectionResult :=
  match spanOpt, loadOpt with
  | some S, some L => search S L hFilter eFilter p catalog
  | _, _ => Except.error CoreError.InvalidInput

/-- Sample catalog entry used by the concrete witnesses (Scenario A of the
spec: one entry allowing 6.00 m at the 500 kg/m² band). -/
def sampleEntry : CatalogEntry :=
  { reference := "T1"
    hauteurHourdisCm := 16
    entraxeCm := 60
    epaisseurTableCm := 4
    porteesLimites := [(500, 6)]
    hauteurTotaleCm := 20 }

/-- The selection the sample run is expected to produce. -/
def sampleSelection : SelectionResult :=
  { nombreCandidates := 1
    selected := some
      { entry := sampleEntry
        chargeBand := 500
        allowedSpan := 6
        ratioUtilisationPct := 275/3
        reservePorteeM := 1/2 }
    alternatives := []
    message := "T1" }

/-- The rated form of the sample entry for span 5.50 m and load 450 kg/m². -/
def sampleRated : RatedEntry :=
  { entry := sampleEntry, chargeBand := 500, allowedSpan := 6,
    ratioUtilisationPct := 275/3, reservePorteeM := 1/2 }

/-! ## Helper lemmas -/

theorem sampleRun_eq :
    search (11/2) 450 none none OptimisationMode.economique [sampleEntry] =
      Except.ok sampleSelection := by
  have h1 : ¬ ((11/2 : ℚ) ≤ 0 ∨ (450:ℚ) ≤ 0) := by norm_num
  have h2 : rateEntry (11/2) 450 sampleEntry = some sampleRated := by
    norm_num [rateEntry, sampleEntry, resolveBand, utilization, reserve, sampleRated]
  have h3 : ratedEntries (11/2) 450 none none [sampleEntry] = [sampleRated] := by
    simp [ratedEntries, filteredEntries, List.filter_cons, matchesFilters,
      List.filterMap_cons, h2]
  have h4 : feasibleEntries (11/2) 450 none none [sampleEntry] = [sampleRated] := by
    simp [feasibleEntries, h3, List.filter_cons, feasible, sampleRated]
    norm_num
  have h5 : infeasibleEntries (11/2) 450 none none [sampleEntry] = [] := by
    simp [infeasibleEntries, h3, List.filter_cons, feasible, sampleRated]
    norm_num
  have h6 : rankFeasible OptimisationMode.economique [sampleRated] = [sampleRated] := by
    simp [rankFeasible, List.insertionSort, List.orderedInsert]
  unfold search
  rw [if_neg h1, if_neg (by simp), h4, h5, h6]
  simp [assembleResult, rankInfeasible, List.insertionSort, sampleSelection, sampleRated,
    sampleEntry, filteredEntries, List.filter_cons, matchesFilters]

theorem mem_rated_metrics {S L : ℚ} {hF eF : Option ℚ} {catalog : List CatalogEntry}
    {r : RatedEntry} (h : r ∈ ratedEntries S L hF eF catalog) :
    r.ratioUtilisationPct = S / r.allowedSpan * 100 ∧
      r.reservePorteeM = r.allowedSpan - S := by
  unfold ratedEntries at h
  rcases List.mem_filterMap.mp h with ⟨e, _, he⟩
  unfold rateEntry at he
  rcases Option.map_eq_some'.mp he with ⟨b, _, hb⟩
  subst hb
  exact ⟨rfl, rfl⟩

theorem assemble_mem {nCand : Nat} {ranked infeas : List RatedEntry} {r : RatedEntry}
    (hr : (assembleResult nCand ranked infeas).selected = some r ∨
      r ∈ (assembleResult nCand ranked infeas).alternatives) :
    r ∈ ranked ∨ r ∈ infeas := by
  cases ranked with
  | nil =>
    rcases hr with hsel | halt
    · simp [assembleResult] at hsel
    · right
      exact List.take_subset _ _ (by simpa [assembleResult] using halt)
  | cons sel rest =>
    rcases hr with hsel | halt
    · left
      simp [assembleResult] at hsel
      exact hsel ▸ List.mem_cons_self _ _
    · left
      exact List.mem_cons_of_mem _ (List.take_subset _ _ (by simpa [assembleResult] using halt))

theorem search_ok_mem {S L : ℚ} {hF eF : Option ℚ} {p : OptimisationMode}
    {catalog : List CatalogEntry} {res : SelectionResult} {r : RatedEntry}
    (h : search S L hF eF p catalog = Except.ok res)
    (hr : res.selected = some r ∨ r ∈ res.alternatives) :
    r ∈ ratedEntries S L hF eF catalog := by
  unfold search at h
  split at h
  · simp at h
  split at h
  · simp at h
  injection h with h
  subst h
  rcases assemble_mem hr with hm | hm
  · have hf : r ∈ feasibleEntries S L hF eF catalog :=
      ((List.perm_insertionSort _ _).mem_iff).mp hm
    exact (List.mem_filter.mp hf).1
  · have hf : r ∈ infeasibleEntries S L hF eF catalog :=
      ((List.perm_insertionSort _ _).mem_iff).mp hm
    exact (List.mem_filter.mp hf).1

/-! ## Claim theorems -/

/-- C1: in every selection run, the derived metrics of the selected entry
and of every listed alternative are computed from the entry's resolved
allowed span by the same formulas: utilization = S / allowedSpan * 100 and
reserve = allowedSpan − S. -/
theorem selection_metrics_formulas (S L : ℚ) (hF eF : Option ℚ) (p : OptimisationMode)
    (catalog : List CatalogEntry) (res : SelectionResult)
    (h : search S L hF eF p catalog = Except.ok res) :
    (∀ r : RatedEntry, res.selected = some r →
      r.ratioUtilisationPct = S / r.allowedSpan * 100 ∧
        r.reservePorteeM = r.allowedSpan - S) ∧
    (∀ r ∈ res.alternatives,
      r.ratioUtilisationPct = S / r.allowedSpan * 100 ∧
        r.reservePorteeM = r.allowedSpan - S) := by
  constructor
  · intro r hr
    exact mem_rated_metrics (search_ok_mem h (Or.inl hr))
  · intro r hr
    exact mem_rated_metrics (search_ok_mem h (Or.inr hr))

/-- Witness for C1: the Scenario A run (span 5.50 m, load 450 kg/m², one
entry allowing 6.00 m at the 500 band) satisfies the metric formulas. -/
theorem selection_metrics_formulas_witness :
    (∀ r : RatedEntry, sampleSelection.selected = some r →
      r.ratioUtilisationPct = 11/2 / r.allowedSpan * 100 ∧
        r.reservePorteeM = r.allowedSpan - 11/2) ∧
    (∀ r ∈ sampleSelection.alternatives,
      r.ratioUtilisationPct = 11/2 / r.allowedSpan * 100 ∧
        r.reservePorteeM = r.allowedSpan - 11/2) :=
  selection_metrics_formulas (11/2) 450 none none OptimisationMode.economique
    [sampleEntry] sampleSelection sampleRun_eq

/-- C2: the feasibility predicate is allowedSpan ≥ S with equality counting
as pass, so an entry whose allowed span exactly equals the demanded span
(utilization exactly 100 %) is feasible; the frontend pass indicator also
accepts a ratio of exactly 100. -/
theorem feasibility_boundary (S A : ℚ) :
    ((feasible S A = true) ↔ S ≤ A) ∧
    feasible S S = true ∧
    (S ≠ 0 → utilization S S = 100) ∧
    verificationOk (some 100) = true := by
  refine ⟨by simp [feasible], by simp [feasible], ?_, by norm_num [verificationOk]⟩
  intro hS
  unfold utilization
  rw [div_self hS, one_mul]

/-- Witness for C2: at demanded span 5 and allowed span 5 the entry is
feasible and the utilization is exactly 100. -/
theorem feasibility_boundary_witness :
    feasible 5 5 = true ∧ utilization 5 5 = 100 :=
  ⟨(feasibility_boundary 5 5).2.1, (feasibility_boundary 5 5).2.2.1 (by norm_num)⟩

/-- C3: for a positive allowed span, an entry is feasible iff its
utilization is at most 100 and its reserve is at least 0, and every
infeasible entry has utilization over 100 and negative reserve. -/
theorem feasibility_metrics_iff (S A : ℚ) (hA : 0 < A) :
    ((feasible S A = true) ↔ (utilization S A ≤ 100 ∧ 0 ≤ reserve S A)) ∧
    ((feasible S A = false) → (100 < utilization S A ∧ reserve S A < 0)) := by
  have hu : utilization S A ≤ 100 ↔ S ≤ A := by
    unfold utilization
    rw [div_mul_eq_mul_div, div_le_iff₀ hA]
    constructor <;> intro h <;> linarith
  have hu2 : 100 < utilization S A ↔ A < S := by
    unfold utilization
    rw [div_mul_eq_mul_div, lt_div_iff₀ hA]
    constructor <;> intro h <;> linarith
  constructor
  · simp only [feasible, decide_eq_true_eq]
    constructor
    · intro h
      exact ⟨hu.mpr h, by unfold reserve; linarith⟩
    · intro h
      exact hu.mp h.1
  · simp only [feasible, decide_eq_false_iff_not, not_le]
    intro h
    exact ⟨hu2.mpr h, by unfold reserve; linarith⟩

/-- Witness for C3: at S = 1, A = 2 the equivalence holds with 0 < 2. -/
theorem feasibility_metrics_iff_witness :
    ((feasible 1 2 = true) ↔ (utilization 1 2 ≤ 100 ∧ 0 ≤ reserve 1 2)) ∧
    ((feasible 1 2 = false) → (100 < utilization 1 2 ∧ reserve 1 2 < 0)) :=
  feasibility_metrics_iff 1 2 (by norm_num)

/-- Counterexample for C4: the source declares three available norms
(EC2, ACI318, BAEL91), not two, so "exactly two of the five declared codes
are implemented" is false. -/
theorem implemented_normes_count_counterexample :
    ¬ ((allNormes.filter (fun n => implementedNorme n)).length = 2) := by
  decide

/-- C4 (amended): of the five declared design codes, exactly three
(EC2, ACI318, BAEL91) are implemented and resolvable to an engine; the two
upcoming codes (BS8110, CSA_A23) are rejected at resolution time with
UnsupportedDesignCode, and a successful resolution always yields the engine
of the requested code — never a fallback to another code. -/
theorem implemented_normes_resolution :
    (allNormes.filter (fun n => implementedNorme n)).length = 3 ∧
    (∀ n ∈ UPCOMING_NORMES, resolveNorme n = Except.error CoreError.UnsupportedDesignCode) ∧
    (∀ (n : NormeType) (eng : Engine), resolveNorme n = Except.ok eng →
      eng.norme = n ∧ implementedNorme n = true) := by
  refine ⟨by decide, ?_, ?_⟩
  · intro n hn
    simp only [UPCOMING_NORMES, List.mem_cons, List.mem_singleton] at hn
    rcases hn with rfl | hn
    · rfl
    · rcases hn with rfl | hn
      · rfl
      · simp at hn
  · intro n eng h
    unfold resolveNorme at h
    by_cases hi : implementedNorme n = true
    · rw [if_pos hi] at h
      injection h with h
      exact ⟨by rw [← h], hi⟩
    · rw [if_neg hi] at h
      simp at h

/-- Witness for C4: BS8110 resolves to UnsupportedDesignCode and EC2
resolves to its own engine. -/
theorem implemented_normes_resolution_witness :
    resolveNorme NormeType.BS8110 = Except.error CoreError.UnsupportedDesignCode ∧
    (({ norme := NormeType.EC2 } : Engine).norme = NormeType.EC2 ∧
      implementedNorme NormeType.EC2 = true) :=
  ⟨implemented_normes_resolution.2.1 NormeType.BS8110 (by simp [UPCOMING_NORMES]),
   implemented_normes_resolution.2.2 NormeType.EC2 { norme := NormeType.EC2 } rfl⟩

/-- C5: the verifier's summary is PASS iff the flexion, deflection and
shear sub-results all pass; otherwise it is FAIL and the message names the
first failing check, and all three checks are always executed and reported. -/
theorem verifier_summary_global (fd fl dd dl sd sl : ℚ) :
    ((verify fd fl dd dl sd sl).summary.globalStatus = "PASS" ↔
      ((verify fd fl dd dl sd sl).flexion.ok = true ∧
        (verify fd fl dd dl sd sl).fleche.ok = true ∧
        (verify fd fl dd dl sd sl).effortTranchant.ok = true)) ∧
    ((verify fd fl dd dl sd sl).summary.globalStatus ≠ "PASS" →
      (verify fd fl dd dl sd sl).summary.globalStatus = "FAIL" ∧
      (verify fd fl dd dl sd sl).summary.message =
        "Echec: " ++ firstFailingName (verify fd fl dd dl sd sl).flexion
          (verify fd fl dd dl sd sl).fleche (verify fd fl dd dl sd sl).effortTranchant) ∧
    ((verify fd fl dd dl sd sl).flexion = mkCheck "flexion" fd fl ∧
      (verify fd fl dd dl sd sl).fleche = mkCheck "fleche" dd dl ∧
      (verify fd fl dd dl sd sl).effortTranchant = mkCheck "effort tranchant" sd sl) := by
  simp only [verify, buildSummary, mkCheck]
  by_cases h1 : fd ≤ fl <;> by_cases h2 : dd ≤ dl <;> by_cases h3 : sd ≤ sl <;>
    simp [h1, h2, h3, firstFailingName]

/-- Witness for C5: a run whose shear check fails is FAIL with the first
failing check named. -/
theorem verifier_summary_global_witness :
    (verify 1 2 1 2 3 2).summary.globalStatus = "FAIL" ∧
    (verify 1 2 1 2 3 2).summary.message =
      "Echec: " ++ firstFailingName (verify 1 2 1 2 3 2).flexion
        (verify 1 2 1 2 3 2).fleche (verify 1 2 1 2 3 2).effortTranchant :=
  (verifier_summary_global 1 2 1 2 3 2).2.1
    (by
      norm_num [verify, buildSummary, mkCheck]
      simp)

/-- C6: when both filters are provided and no catalog entry matches them,
the run reports zero candidates in a normal result — with no selection, no
alternatives, and with the filters not widened — which is a different
outcome from the EmptyCatalog error produced when the catalog itself
resolves to zero rows. -/
theorem zero_candidates_distinct (S L hv ev : ℚ) (p : OptimisationMode)
    (catalog : List CatalogEntry) (hS : 0 < S) (hL : 0 < L) (hcat : catalog ≠ [])
    (hnone : ∀ a ∈ catalog, matchesFilters (some hv) (some ev) a = false) :
    search S L (some hv) (some ev) p catalog =
      Except.ok { nombreCandidates := 0, selected := none, alternatives := [],
                  message := "span exceeds all catalog capacities for this load" } ∧
    search S L (some hv) (some ev) p [] = Except.error CoreError.EmptyCatalog ∧
    search S L (some hv) (some ev) p catalog ≠ search S L (some hv) (some ev) p [] := by
  have h1 : ¬ (S ≤ 0 ∨ L ≤ 0) := by
    rintro (h | h) <;> linarith
  have hfil : filteredEntries (some hv) (some ev) catalog = [] := by
    unfold filteredEntries
    rw [List.filter_eq_nil_iff]
    intro a ha
    simp [hnone a ha]
  have hok : search S L (some hv) (some ev) p catalog =
      Except.ok { nombreCandidates := 0, selected := none, alternatives := [],
                  message := "span exceeds all catalog capacities for this load" } := by
    unfold search
    rw [if_neg h1, if_neg (by simp [List.isEmpty_iff, hcat])]
    simp [feasibleEntries, infeasibleEntries, ratedEntries, hfil, rankFeasible,
      rankInfeasible, List.insertionSort, assembleResult]
  have herr : search S L (some hv) (some ev) p [] = Except.error CoreError.EmptyCatalog := by
    unfold search
    rw [if_neg h1]
    simp
  refine ⟨hok, herr, ?_⟩
  rw [hok, herr]
  simp

/-- Witness for C6: filters that match nothing on the sample catalog give a
zero-candidate result, while the empty catalog gives EmptyCatalog. -/
theorem zero_candidates_distinct_witness :
    search 5 450 (some 99) (some 60) OptimisationMode.economique [sampleEntry] =
      Except.ok { nombreCandidates := 0, selected := none, alternatives := [],
                  message := "span exceeds all catalog capacities for this load" } ∧
    search 5 450 (some 99) (some 60) OptimisationMode.economique [] =
      Except.error CoreError.EmptyCatalog ∧
    search 5 450 (some 99) (some 60) OptimisationMode.economique [sampleEntry] ≠
      search 5 450 (some 99) (some 60) OptimisationMode.economique [] :=
  zero_candidates_distinct 5 450 99 60 OptimisationMode.economique [sampleEntry]
    (by norm_num) (by norm_num) (by simp)
    (by
      intro a ha
      rw [List.mem_singleton] at ha
      subst ha
      norm_num [matchesFilters, sampleEntry])

/-- Counterexample for C7: the claim says every span greater than 0 and up
to 20 m is accepted by input validation, but the form's span input declares
min 1 and max 15, so 16 m (and 0.5 m) are rejected. -/
theorem portee_bound_counterexample :
    (0:ℚ) < 16 ∧ (16:ℚ) ≤ 20 ∧ porteeInputAccepted 16 = false ∧
    (0:ℚ) < 1/2 ∧ porteeInputAccepted (1/2) = false := by
  refine ⟨by norm_num, by norm_num, ?_, by norm_num, ?_⟩ <;>
    norm_num [porteeInputAccepted]

/-- C7 (amended): a non-positive span or load, or a missing required field
(span or load absent from the parameters), is rejected with InvalidInput
before any computation starts and produces no partial result; the form's
span input validation accepts exactly the spans between 1 m and 15 m
(not every positive span up to 20 m). -/
theorem input_validation_amended :
    (∀ (S L : ℚ) (hF eF : Option ℚ) (p : OptimisationMode) (catalog : List CatalogEntry),
      S ≤ 0 ∨ L ≤ 0 → search S L hF eF p catalog = Except.error CoreError.InvalidInput) ∧
    (∀ (spanOpt loadOpt hF eF : Option ℚ) (p : OptimisationMode) (catalog : List CatalogEntry),
      spanOpt = none ∨ loadOpt = none →
        runSelection spanOpt loadOpt hF eF p catalog = Except.error CoreError.InvalidInput) ∧
    (∀ s : ℚ, porteeInputAccepted s = true ↔ (1 ≤ s ∧ s ≤ 15)) := by
  refine ⟨?_, ?_, ?_⟩
  · intro S L hF eF p catalog h
    unfold search
    rw [if_pos h]
  · intro spanOpt loadOpt hF eF p catalog hmiss
    cases spanOpt with
    | none => cases loadOpt <;> rfl
    | some S =>
      cases loadOpt with
      | none => rfl
      | some L => rcases hmiss with h | h <;> exact absurd h (by simp)
  · intro s
    simp [porteeInputAccepted]

/-- Witness for C7: a negative span is rejected with InvalidInput, a
missing span field is rejected with InvalidInput even over a non-empty
catalog, and a 5 m span is accepted by the form. -/
theorem input_validation_amended_witness :
    search (-1) 5 none none OptimisationMode.economique [] =
      Except.error CoreError.InvalidInput ∧
    runSelection none (some 450) none none OptimisationMode.economique [sampleEntry] =
      Except.error CoreError.InvalidInput ∧
    (porteeInputAccepted 5 = true ↔ ((1:ℚ) ≤ 5 ∧ (5:ℚ) ≤ 15)) :=
  ⟨input_validation_amended.1 (-1) 5 none none OptimisationMode.economique []
      (Or.inl (by norm_num)),
   input_validation_amended.2.1 none (some 450) none none OptimisationMode.economique
      [sampleEntry] (Or.inl rfl),
   input_validation_amended.2.2 5⟩

/-- C8: a result whose verification block lacks a utilization ratio is
rendered as a failed verification, exactly as if the ratio exceeded 100:
the pass indicator requires the ratio to be present and at most 100. -/
theorem missing_ratio_rendered_failed :
    verificationOk none = false ∧
    plancherSummaryTitle none = "Portée insuffisante" ∧
    (∀ r : ℚ, 100 < r → plancherSummaryTitle (some r) = plancherSummaryTitle none) ∧
    (∀ r : ℚ, verificationOk (some r) = true ↔ r ≤ 100) := by
  refine ⟨rfl, rfl, ?_, ?_⟩
  · intro r hr
    simp [plancherSummaryTitle, verificationOk]
    linarith
  · intro r
    simp [verificationOk]

/-- Witness for C8: a ratio of 150 renders the same failed title as a
missing ratio. -/
theorem missing_ratio_rendered_failed_witness :
    plancherSummaryTitle (some 150) = plancherSummaryTitle none :=
  missing_ratio_rendered_failed.2.2.1 150 (by norm_num)

/-- C9: the editor's run operation is requested exactly when the
parameter-save mutation succeeds — the run request is issued inside the
save mutation's success continuation — and a bare save never runs the
computation. -/
theorem run_after_save_success (b : Bool) :
    ((EditorEvent.runRequested ∈ handleRun b) ↔ b = true) ∧
    handleRun true =
      [EditorEvent.saveRequested, EditorEvent.saveSucceeded, EditorEvent.runRequested] ∧
    handleRun false = [EditorEvent.saveRequested, EditorEvent.saveFailed] ∧
    (EditorEvent.runRequested ∉ handleSave b) := by
  cases b <;> simp [handleRun, handleSave, mutateWithOnSuccess]

/-- Witness for C9: a failing save produces no run request. -/
theorem run_after_save_success_witness :
    handleRun false = [EditorEvent.saveRequested, EditorEvent.saveFailed] :=
  (run_after_save_success false).2.2.1

/-- C10: every zoom operation keeps the canvas scale within [0.1, 10] —
the wheel handler clamps unconditionally and the two buttons preserve the
interval — and the automatic fit-to-content scale never exceeds 2. -/
theorem zoom_scale_bounds (d : Bool) (s stageW stageH bw bh : ℚ) :
    (1/10 ≤ handleWheelScale d s ∧ handleWheelScale d s ≤ 10) ∧
    (1/10 ≤ s → s ≤ 10 → 1/10 ≤ handleZoomIn s ∧ handleZoomIn s ≤ 10) ∧
    (1/10 ≤ s → s ≤ 10 → 1/10 ≤ handleZoomOut s ∧ handleZoomOut s ≤ 10) ∧
    fitScale stageW stageH bw bh ≤ 2 := by
  refine ⟨⟨le_max_left _ _, ?_⟩, ?_, ?_, min_le_right _ _⟩
  · exact max_le (by norm_num) (min_le_left _ _)
  · intro hlo hhi
    refine ⟨le_min ?_ (by norm_num), min_le_right _ _⟩
    nlinarith
  · intro hlo hhi
    refine ⟨le_max_right _ _, max_le ?_ (by norm_num)⟩
    rw [div_le_iff₀ (by norm_num : (0:ℚ) < 6/5)]
    linarith

/-- Witness for C10: from scale 1 both buttons stay within the interval and
the fit scale for an 800×600 stage over a 100×100 drawing is at most 2. -/
theorem zoom_scale_bounds_witness :
    ((1:ℚ)/10 ≤ handleZoomIn 1 ∧ handleZoomIn 1 ≤ 10) ∧
    ((1:ℚ)/10 ≤ handleZoomOut 1 ∧ handleZoomOut 1 ≤ 10) ∧
    fitScale 800 600 100 100 ≤ 2 :=
  ⟨(zoom_scale_bounds true 1 800 600 100 100).2.1 (by norm_num) (by norm_num),
   (zoom_scale_bounds true 1 800 600 100 100).2.2.1 (by norm_num) (by norm_num),
   (zoom_scale_bounds true 1 800 600 100 100).2.2.2⟩

end ConcreteFlow
